import Mathlib

/-!
Verification of the TikTok-Uploader-API-Server upload orchestration.

The repository contains two HTTP upload handlers:
  * `src/app/main.py` — a FastAPI `POST /upload` endpoint (`upload_video`)
    that stages the uploaded video to a temporary `.mp4` file, copies the
    account's cookie file into the working directory, invokes the opaque
    `upload_tiktok` automation routine off-thread, classifies its outcome,
    and cleans the staged files in a `finally` block;
  * `src/main.py` — a Flask `POST /upload` endpoint (`upload_video`) with
    filename/extension validation and per-branch cleanup.

Both handlers are embedded below as pure functions.  Python strings are
modelled as `List Char` so that every operation is structural and
kernel-computable.  The filesystem is modelled as association lists of
(name, content) pairs, one list per directory the code touches.  The
opaque external automation routine `upload_tiktok` is an oracle argument
of type `Except`: `.ok r` is its return value, `.error m` an exception
whose `str()` is `m`.  A `cleanupFault` flag injects a failure into the
cleanup deletion calls, to reason about the handlers' behaviour when
cleanup itself raises.
-/

namespace TikTokUploader

/-- Python strings, modelled as character lists. -/
abbrev Str := List Char

/-- Does `s` start with `p`? (character-list version of Python `startswith`). -/
def strStarts : Str → Str → Bool
  | [], _ => true
  | _ :: _, [] => false
  | p :: ps, c :: cs => p == c && strStarts ps cs

/-- Python's `p in s` substring test. -/
def containsSub (p : Str) : Str → Bool
  | [] => strStarts p []
  | c :: cs => strStarts p (c :: cs) || containsSub p cs

/-- Does `s` end with `p`? -/
def strEnds (s p : Str) : Bool := strStarts p.reverse s.reverse

/-- Python `s.split(sep)` for a single-character separator: keeps empty
segments, so `"a,,b".split(',') = ["a", "", "b"]`. -/
def pySplit (sep : Char) : Str → List Str
  | [] => [[]]
  | c :: cs =>
    match pySplit sep cs with
    | [] => if c == sep then [[], []] else [[c]]
    | h :: t => if c == sep then [] :: h :: t else (c :: h) :: t

/-- ASCII whitespace as stripped by Python `str.strip()`. -/
def isSpaceChar (c : Char) : Bool :=
  c == ' ' || c == '\t' || c == '\n' || c == '\r' || c == '\x0b' || c == '\x0c'

/-- Python `s.strip()`. -/
def pyStrip (s : Str) : Str :=
  ((s.dropWhile isSpaceChar).reverse.dropWhile isSpaceChar).reverse

/-- Python `s.lower()` (ASCII). -/
def pyLower (s : Str) : Str := s.map Char.toLower

/-- `str()` of a natural number, via the fuel-structural core routine. -/
def natStr (n : Nat) : Str := Nat.toDigits 10 n

/-- `str()` of a starlette `HTTPException(status_code, detail)`:
`f"{self.status_code}: {self.detail}"`. -/
def strOfExc (status : Nat) (detail : Str) : Str :=
  natStr status ++ (": ").data ++ detail

/-! ## Filesystem model: a directory is a list of (name, content) files. -/

/-- A directory: file names paired with contents. -/
abbrev Dir := List (Str × Str)

/-- `os.path.exists` within one directory. -/
def existsFile (d : Dir) (n : Str) : Bool := d.any (fun p => p.1 == n)

/-- Read a file's content, if present. -/
def lookupFile (d : Dir) (n : Str) : Option Str :=
  (d.find? (fun p => p.1 == n)).map (fun p => p.2)

/-- Write (create or overwrite) a file. -/
def insertFile (d : Dir) (n c : Str) : Dir :=
  (n, c) :: d.filter (fun p => !(p.1 == n))

/-- `os.remove` / `os.unlink`. -/
def removeFile (d : Dir) (n : Str) : Dir := d.filter (fun p => !(p.1 == n))

/-- The guarded deletion idiom `if os.path.exists(p): os.unlink(p)`. -/
def unlinkIfExists (d : Dir) (n : Str) : Dir :=
  if existsFile d n then removeFile d n else d

/-- The filesystem locations touched by the FastAPI handler:
the configured cookie directory (`COOKIE_DIR`), the process working
directory (where the cookie copy is staged), and the temp-file directory. -/
structure FS where
  cookieDir : Dir
  workDir : Dir
  tmpDir : Dir
deriving DecidableEq

/-- Arguments the handlers pass to the external `upload_tiktok` routine
(the Flask variant omits `day`, leaving the library default `none`). -/
structure AutoCall where
  video : Str
  description : Str
  accountname : Str
  hashtags : Option (List Str)
  sound_name : Option Str
  sound_aud_vol : Str
  schedule : Option Str
  day : Option Int
  copyrightcheck : Bool
deriving DecidableEq

/-! ## FastAPI variant: `src/app/main.py` -/

namespace FastApp

/-- The multipart form of the FastAPI `POST /upload` endpoint.  `none`
means the optional field was absent from the request (FastAPI then
injects the `Form(...)` default, which the handler body models with
`getD`).  `videoFilename` is the uploaded file's client-supplied name;
the handler never reads it. -/
structure UploadForm where
  videoFilename : Str := []
  videoContent : Str := []
  description : Str := []
  accountname : Str
  hashtags : Option Str := none
  sound_name : Option Str := none
  sound_aud_vol : Option Str := none
  schedule : Option Str := none
  day : Option Int := none
  copyrightcheck : Bool := false
deriving DecidableEq

/-- An HTTP response of the endpoint: either the success body
`{"success": ..., "message": ..., "status": ...}` (the timing field is
omitted from the model) or an `HTTPException` rendered as status code
plus detail. -/
inductive Resp where
  | ok (success : Bool) (message : Str) (status : Str)
  | err (status : Nat) (detail : Str)
deriving DecidableEq

/-- HTTP status code carried by a response (200 for the success dict). -/
def respStatus : Resp → Nat
  | .ok _ _ _ => 200
  | .err s _ => s

/-- Result of one request: the response, the final filesystem, and the
arguments of the `upload_tiktok` invocation, if one happened. -/
structure RunResult where
  response : Resp
  fs : FS
  autoCall : Option AutoCall
deriving DecidableEq

/-- Name of an account's cookie file, `f'TK_cookies_{accountname}.json'`
(used both for the source in `COOKIE_DIR` and the working-directory
copy). -/
def cookieFileName (acct : Str) : Str :=
  ("TK_cookies_").data ++ acct ++ (".json").data

/-- Lines 111–115 of `src/app/main.py`: `hashtag_list` stays `None` when
`hashtags` is absent or empty (falsy), else it is
`[tag.strip() for tag in hashtags.split(',')]`. -/
def processHashtags (hashtags : Option Str) : Option (List Str) :=
  match hashtags with
  | none => none
  | some s => if s == [] then none else some ((pySplit ',' s).map pyStrip)

/-- Lines 22–74, `run_upload_in_thread`: runs the oracle `upload_tiktok`
result; an exception whose text contains `"Save draft"` becomes the
return value `"DRAFT"`, any other exception is re-raised. -/
def run_upload_in_thread (autoResult : Except Str Str) : Except Str Str :=
  match autoResult with
  | .ok r => .ok r
  | .error e =>
    if containsSub ("Save draft").data e then .ok ("DRAFT").data else .error e

/-- Lines 154–167, the `finally` block: delete the temp video (when one
was created and exists) and then the working-directory cookie copy (when
it exists), inside a `try` whose `except` only logs.  `cleanupFault`
injects an exception into the deletion calls: the block then leaves the
filesystem as it was and the logged error changes nothing else. -/
def finallyCleanup (r : RunResult) (temp_video_path : Option Str)
    (acct : Str) (cleanupFault : Bool) : RunResult :=
  if cleanupFault then r
  else
    let tmp1 :=
      match temp_video_path with
      | some p => unlinkIfExists r.fs.tmpDir p
      | none => r.fs.tmpDir
    { r with fs :=
        { cookieDir := r.fs.cookieDir,
          workDir := unlinkIfExists r.fs.workDir (cookieFileName acct),
          tmpDir := tmp1 } }

/-- Lines 76–167, the FastAPI `upload_video` endpoint.
`tmpBase` is the unique name `tempfile.NamedTemporaryFile` picks (the
code adds the `suffix='.mp4'`); `autoResult` is the oracle outcome of
`upload_tiktok`.  Note that the `raise HTTPException(status_code=400, ...)`
for a missing cookie file is caught by the handler's own
`except Exception` (line 150), which re-raises
`HTTPException(status_code=500, detail=str(e))`, and likewise the inner
`HTTPException(500, f"Upload failed: {e}")` is re-wrapped there. -/
def upload_video (fs : FS) (form : UploadForm) (tmpBase : Str)
    (autoResult : Except Str Str) (cleanupFault : Bool) : RunResult :=
  let cookie_source := cookieFileName form.accountname
  if !(existsFile fs.cookieDir cookie_source) then
    finallyCleanup
      { response := .err 500 (strOfExc 400
          (("Cookie file not found for account ").data ++ form.accountname)),
        fs := fs, autoCall := none }
      none form.accountname cleanupFault
  else
    let temp_video_path := tmpBase ++ (".mp4").data
    let fs1 := { fs with tmpDir := insertFile fs.tmpDir temp_video_path form.videoContent }
    let cookie_dest := cookie_source
    let cookieContent := (lookupFile fs.cookieDir cookie_source).getD []
    let fs2 := { fs1 with workDir := insertFile fs1.workDir cookie_dest cookieContent }
    let call : AutoCall :=
      { video := temp_video_path,
        description := form.description,
        accountname := form.accountname,
        hashtags := processHashtags form.hashtags,
        sound_name := form.sound_name,
        sound_aud_vol := form.sound_aud_vol.getD ("mix").data,
        schedule := form.schedule,
        day := form.day,
        copyrightcheck := form.copyrightcheck }
    let primary : Resp :=
      match run_upload_in_thread autoResult with
      | .ok r =>
        if r == ("DRAFT").data then
          .ok true ("Video saved as draft").data ("draft").data
        else
          .ok true ("Video uploaded successfully").data ("posted").data
      | .error e =>
        .err 500 (strOfExc 500 (("Upload failed: ").data ++ e))
    finallyCleanup { response := primary, fs := fs2, autoCall := some call }
      (some temp_video_path) form.accountname cleanupFault

end FastApp

/-! ## Flask variant: `src/main.py` -/

namespace FlaskApp

/-- The allow-listed video extensions, line 11. -/
def ALLOWED_EXTENSIONS : List Str :=
  [("mp4").data, ("mov").data, ("avi").data, ("wmv").data]

/-- The segment of `filename` after its last `'.'`
(Python `filename.rsplit('.', 1)[1]` when a dot is present). -/
def afterLastDot (s : Str) : Str :=
  (s.reverse.takeWhile (fun c => !(c == '.'))).reverse

/-- Lines 13–14, `allowed_file`:
`'.' in filename and filename.rsplit('.', 1)[1].lower() in ALLOWED_EXTENSIONS`. -/
def allowed_file (filename : Str) : Bool :=
  filename.contains '.' && ALLOWED_EXTENSIONS.contains (pyLower (afterLastDot filename))

/-- The Flask request: the multipart file part (`hasVideo` is
`'video' in request.files`) and the form fields, `none` when absent. -/
structure FlaskReq where
  hasVideo : Bool := true
  filename : Str := []
  videoContent : Str := []
  accountname : Option Str := none
  description : Option Str := none
  hashtags : Option Str := none
  sound_name : Option Str := none
  sound_aud_vol : Option Str := none
  schedule : Option Str := none
  copyrightcheck : Option Str := none
deriving DecidableEq

/-- Result of one Flask request: HTTP status, the single JSON field
(`message` on 200, `error` otherwise), the final contents of
`UPLOAD_FOLDER`, and the `upload_tiktok` arguments when it was called. -/
structure FlaskResult where
  status : Nat
  body : Str
  files : Dir
  autoCall : Option AutoCall
deriving DecidableEq

/-- Representative `str()` of the `OSError` raised by the injected
`os.remove` failure. -/
def removeErrMsg : Str := ("[Errno 13] Permission denied").data

/-- Lines 16–68, the Flask `upload_video` endpoint.  `files0` is the
`UPLOAD_FOLDER` directory, `sanitize` models werkzeug's external
`secure_filename`, `autoResult` the oracle outcome of `upload_tiktok`.
`cleanupFault` injects an exception into the success-path
`os.remove(video_path)` (line 61); the handler's `except` then deletes
the file (line 66–67, modelled as succeeding) and returns the 500 error
response built from the `OSError`. -/
def upload_video (files0 : Dir) (req : FlaskReq) (sanitize : Str → Str)
    (autoResult : Except Str Unit) (cleanupFault : Bool) : FlaskResult :=
  if !req.hasVideo then
    ⟨400, ("No video file provided").data, files0, none⟩
  else if req.filename == [] then
    ⟨400, ("No selected video file").data, files0, none⟩
  else if !(allowed_file req.filename) then
    ⟨400, ("Invalid file type").data, files0, none⟩
  else if (req.accountname.getD []) == [] then
    ⟨400, ("Account name is required").data, files0, none⟩
  else
    let accountname := req.accountname.getD []
    let hashtags : Option (List Str) :=
      match req.hashtags with
      | none => none
      | some s => if s == [] then none else some (pySplit ',' s)
    let video_path := ("/app/uploads/").data ++ sanitize req.filename
    let files1 := insertFile files0 video_path req.videoContent
    let call : AutoCall :=
      { video := video_path,
        description := req.description.getD [],
        accountname := accountname,
        hashtags := hashtags,
        sound_name := req.sound_name,
        sound_aud_vol := req.sound_aud_vol.getD ("mix").data,
        schedule := req.schedule,
        day := none,
        copyrightcheck := pyLower (req.copyrightcheck.getD ("false").data) == ("true").data }
    match autoResult with
    | .ok _ =>
      if cleanupFault then
        ⟨500, removeErrMsg, removeFile files1 video_path, some call⟩
      else
        ⟨200, ("Video uploaded successfully").data, removeFile files1 video_path, some call⟩
    | .error e =>
      ⟨500, e, removeFile files1 video_path, some call⟩

end FlaskApp

/-! ## Concrete fixtures used by counterexamples and witnesses -/

/-- An empty filesystem: no cookie files, clean working and temp dirs. -/
def fsEmpty : FS := ⟨[], [], []⟩

/-- A filesystem holding the cookie file of account `alice`. -/
def fsAlice : FS :=
  ⟨[(FastApp.cookieFileName ("alice").data, ("COOKIE").data)], [], []⟩

/-- A filesystem holding the cookie file of account `bob`. -/
def fsBob : FS :=
  ⟨[(FastApp.cookieFileName ("bob").data, ("COOKIE").data)], [], []⟩

/-- A minimal FastAPI form for account `alice`. -/
def formAlice : FastApp.UploadForm := { accountname := ("alice").data }

/-- A FastAPI form for account `ghost`, which has no cookie file. -/
def formGhost : FastApp.UploadForm := { accountname := ("ghost").data }

/-- A FastAPI form for account `bob`. -/
def formBob : FastApp.UploadForm := { accountname := ("bob").data }

/-- A valid Flask request: `a.mp4` for account `alice`. -/
def reqAlice : FlaskApp.FlaskReq :=
  { filename := ("a.mp4").data, accountname := some ("alice").data }

/-- The `upload_tiktok` arguments produced by the main FastAPI path for
`fsAlice` / `formAlice` with temp base `tmpA`. -/
def callAlice : AutoCall :=
  { video := ("tmpA.mp4").data,
    description := [],
    accountname := ("alice").data,
    hashtags := none,
    sound_name := none,
    sound_aud_vol := ("mix").data,
    schedule := none,
    day := none,
    copyrightcheck := false }

/-- A FastAPI form for `alice` whose uploaded file is empty and carries a
disallowed `.txt` filename. -/
def formTxt : FastApp.UploadForm :=
  { accountname := ("alice").data, videoFilename := ("clip.txt").data,
    videoContent := [] }

/-- A FastAPI form for `alice` with the out-of-enumeration sound mix mode
`loud`. -/
def formLoud : FastApp.UploadForm :=
  { accountname := ("alice").data, sound_aud_vol := some ("loud").data }

/-- A valid Flask request: `b.mp4` for account `carol`. -/
def reqCarol : FlaskApp.FlaskReq :=
  { filename := ("b.mp4").data, accountname := some ("carol").data }

/-- A Flask request with a valid video but no account name. -/
def reqNoAccount : FlaskApp.FlaskReq :=
  { filename := ("c.mp4").data, accountname := none }

/-! ## Helper lemmas about the filesystem model and the cleanup block -/

theorem existsFile_removeFile (d : Dir) (n : Str) :
    existsFile (removeFile d n) n = false := by
  simp [existsFile, removeFile, List.any_eq_true, List.mem_filter]

theorem existsFile_unlinkIfExists (d : Dir) (n : Str) :
    existsFile (unlinkIfExists d n) n = false := by
  unfold unlinkIfExists
  split
  · exact existsFile_removeFile d n
  · rename_i h
    simpa using h

theorem existsFile_insertFile (d : Dir) (n c : Str) :
    existsFile (insertFile d n c) n = true := by
  simp [existsFile, insertFile]

namespace FastApp

theorem finallyCleanup_response (r : RunResult) (t : Option Str) (a : Str)
    (b : Bool) : (finallyCleanup r t a b).response = r.response := by
  cases b <;> rfl

theorem finallyCleanup_autoCall (r : RunResult) (t : Option Str) (a : Str)
    (b : Bool) : (finallyCleanup r t a b).autoCall = r.autoCall := by
  cases b <;> rfl

theorem finallyCleanup_cookieDir (r : RunResult) (t : Option Str) (a : Str)
    (b : Bool) : (finallyCleanup r t a b).fs.cookieDir = r.fs.cookieDir := by
  cases b <;> rfl

theorem finallyCleanup_workDir (r : RunResult) (t : Option Str) (a : Str) :
    (finallyCleanup r t a false).fs.workDir =
      unlinkIfExists r.fs.workDir (cookieFileName a) := by
  rfl

theorem finallyCleanup_tmpDir_none (r : RunResult) (a : Str) :
    (finallyCleanup r none a false).fs.tmpDir = r.fs.tmpDir := by
  rfl

theorem finallyCleanup_tmpDir_some (r : RunResult) (p : Str) (a : Str) :
    (finallyCleanup r (some p) a false).fs.tmpDir =
      unlinkIfExists r.fs.tmpDir p := by
  rfl

end FastApp

theorem strStarts_append (p t : Str) : strStarts p (p ++ t) = true := by
  induction p with
  | nil => rfl
  | cons c cs ih => simp [strStarts, ih]

theorem strEnds_append (s p : Str) : strEnds (s ++ p) p = true := by
  unfold strEnds
  rw [List.reverse_append]
  exact strStarts_append p.reverse s.reverse

/-! ## Claim theorems -/

/-- C9: on every exit path of the FastAPI upload operation — for every
initial filesystem, form, temp name, automation outcome, and cleanup
fault — the canonical credential directory (`COOKIE_DIR`) is unchanged
after the operation returns: the operation only copies the cookie into
the working directory and deletes that working copy; it never creates,
mutates, or deletes the canonical file. -/
theorem C9_canonical_cookie_unchanged (fs : FS) (form : FastApp.UploadForm)
    (tmpBase : Str) (autoResult : Except Str Str) (cleanupFault : Bool) :
    (FastApp.upload_video fs form tmpBase autoResult cleanupFault).fs.cookieDir =
      fs.cookieDir := by
  by_cases hc : existsFile fs.cookieDir (FastApp.cookieFileName form.accountname) = true
  · simp [FastApp.upload_video, hc, FastApp.finallyCleanup_cookieDir]
  · have hc' : existsFile fs.cookieDir (FastApp.cookieFileName form.accountname) = false := by
      simpa using hc
    simp [FastApp.upload_video, hc', FastApp.finallyCleanup_cookieDir]

/-- C10: whenever the FastAPI upload operation invokes the automation
routine, the staged temporary video path it hands over ends with the
suffix `.mp4`, regardless of the uploaded file's original filename — the
handler always creates the temp file with `suffix='.mp4'`. -/
theorem C10_temp_path_has_mp4_suffix (fs : FS) (form : FastApp.UploadForm)
    (tmpBase : Str) (autoResult : Except Str Str) (cleanupFault : Bool)
    (c : AutoCall)
    (h : (FastApp.upload_video fs form tmpBase autoResult cleanupFault).autoCall = some c) :
    strEnds c.video ((".mp4").data) = true := by
  by_cases hc : existsFile fs.cookieDir (FastApp.cookieFileName form.accountname) = true
  · simp only [FastApp.upload_video, hc, Bool.not_true, Bool.false_eq_true, if_false,
      FastApp.finallyCleanup_autoCall, Option.some_inj] at h
    subst h
    exact strEnds_append tmpBase ((".mp4").data)
  · have hc' : existsFile fs.cookieDir (FastApp.cookieFileName form.accountname) = false := by
      simpa using hc
    simp [FastApp.upload_video, hc', FastApp.finallyCleanup_autoCall] at h

/-- C10 witness: a `.mov`-agnostic concrete run of the endpoint hands the
automation the path `tmpA.mp4`, which ends in `.mp4`. -/
theorem C10_temp_path_has_mp4_suffix_witness :
    strEnds callAlice.video ((".mp4").data) = true :=
  C10_temp_path_has_mp4_suffix fsAlice formAlice (("tmpA").data)
    (.ok (("OK").data)) false callAlice (by decide)

/-- C6: whenever the account's cookie file exists and the automation
routine raises an error whose message contains the substring
`"Save draft"`, the FastAPI upload operation returns the draft outcome as
a qualified success — `success = true`, message `"Video saved as draft"`,
status `"draft"` — rather than a server error. -/
theorem C6_save_draft_is_qualified_success (fs : FS)
    (form : FastApp.UploadForm) (tmpBase : Str) (cleanupFault : Bool)
    (e : Str)
    (hc : existsFile fs.cookieDir (FastApp.cookieFileName form.accountname) = true)
    (he : containsSub (("Save draft").data) e = true) :
    (FastApp.upload_video fs form tmpBase (.error e) cleanupFault).response =
      .ok true (("Video saved as draft").data) (("draft").data) := by
  unfold FastApp.upload_video
  simp [hc, FastApp.run_upload_in_thread, he, FastApp.finallyCleanup_response]

/-- C6 witness: a concrete run for `alice` whose automation error message
contains `Save draft` yields the draft success response. -/
theorem C6_save_draft_is_qualified_success_witness :
    (FastApp.upload_video fsAlice formAlice (("tmpA").data)
        (.error (("Sound conflict, Save draft instead?").data)) false).response =
      .ok true (("Video saved as draft").data) (("draft").data) :=
  C6_save_draft_is_qualified_success fsAlice formAlice (("tmpA").data) false
    (("Sound conflict, Save draft instead?").data) (by decide) (by decide)

/-- C2: evaluating the FastAPI upload operation at a request whose
account (`ghost`) has no cookie file shows the code's divergence from the
claim: the handler raises `HTTPException(status_code=400, ...)` for the
missing credential, but its own catch-all `except Exception` re-raises it
as a 500 — so the caller sees a server-error status whose detail string
still carries the original `400:` rendering — while, as the claim says,
no filesystem staging happens (the filesystem is untouched and the
automation routine is never invoked). -/
theorem C2_unknown_account_evaluation :
    (FastApp.upload_video fsEmpty formGhost (("tmpA").data)
        (.ok (("OK").data)) false).response =
      .err 500 (("400: Cookie file not found for account ghost").data) ∧
    (FastApp.upload_video fsEmpty formGhost (("tmpA").data)
        (.ok (("OK").data)) false).fs = fsEmpty ∧
    (FastApp.upload_video fsEmpty formGhost (("tmpA").data)
        (.ok (("OK").data)) false).autoCall = none := by
  decide

/-- C4: status-class evaluation.  The first conjunct is the divergence:
the FastAPI validation failure (missing cookie file for `bob`) is
reported with status 500, not a client-error status, because the
catch-all `except` re-raises the 400 as a 500.  The remaining conjuncts
show the parts of the claim the code does satisfy: a FastAPI automation
failure is a 500 server error, and the Flask validation failures are 400
client errors. -/
theorem C4_status_class_evaluation :
    FastApp.respStatus ((FastApp.upload_video fsEmpty formBob (("tmpA").data)
        (.ok (("OK").data)) false).response) = 500 ∧
    FastApp.respStatus ((FastApp.upload_video fsBob formBob (("tmpA").data)
        (.error (("browser crashed").data)) false).response) = 500 ∧
    (FlaskApp.upload_video [] reqNoAccount id (.ok ()) false).status = 400 ∧
    (FlaskApp.upload_video [] { reqNoAccount with hasVideo := false } id
        (.ok ()) false).status = 400 := by
  decide

/-- C3 counterexample: on the claim's own example input
`"funny, cats,, #dance"` the code's hashtag processing does not yield
`["#funny", "#cats", "#dance"]`: it keeps the empty segment and never
adds a `#` to bare tokens. -/
theorem C3_hashtags_counterexample :
    FastApp.processHashtags (some (("funny, cats,, #dance").data)) ≠
      some [(("#funny").data), (("#cats").data), (("#dance").data)] := by
  decide

/-- C3 amended: the FastAPI hashtag processing splits on commas and trims
whitespace from each segment but keeps empty segments and never prefixes
a `#` (the Flask variant does not even trim); an empty or absent input
yields the distinguished no-hashtags value `none`, which is observably
distinct from an empty sequence; and in general no segment is dropped:
for non-empty input the output has exactly one entry per comma-separated
segment. -/
theorem C3_hashtags_amended :
    FastApp.processHashtags (some (("funny, cats,, #dance").data)) =
      some [(("funny").data), (("cats").data), [], (("#dance").data)] ∧
    (FlaskApp.upload_video [] { reqAlice with hashtags := some (("funny, cats,, #dance").data) }
        id (.ok ()) false).autoCall.map (fun c => c.hashtags) =
      some (some [(("funny").data), ((" cats").data), [], ((" #dance").data)]) ∧
    FastApp.processHashtags (some []) = none ∧
    FastApp.processHashtags none = none ∧
    (none : Option (List Str)) ≠ some [] ∧
    (∀ s : Str, s ≠ [] →
      ((FastApp.processHashtags (some s)).getD []).length = (pySplit ',' s).length) := by
  refine ⟨by decide, by decide, by decide, by decide, by decide, ?_⟩
  intro s hs
  have h : (s == []) = false := beq_eq_false_iff_ne.mpr hs
  simp [FastApp.processHashtags, h]

/-- C3 amended witness: the no-segment-dropping conjunct evaluated at the
concrete input `"a,,b"`. -/
theorem C3_hashtags_amended_witness :
    ((FastApp.processHashtags (some (("a,,b").data))).getD []).length =
      (pySplit ',' (("a,,b").data)).length :=
  C3_hashtags_amended.2.2.2.2.2 (("a,,b").data) (by decide)

/-- C7 counterexample: an automation error with message
`SAVE AS DRAFT BUTTON NOT FOUND` is not specially recognized by the code
(the only substring checked is the case-sensitive `"Save draft"`), so the
FastAPI upload operation returns a 500 server error, not a client-error
response. -/
theorem C7_draft_button_counterexample :
    (FastApp.upload_video fsAlice formAlice (("tmpA").data)
        (.error (("SAVE AS DRAFT BUTTON NOT FOUND").data)) false).response =
      .err 500 (("500: Upload failed: SAVE AS DRAFT BUTTON NOT FOUND").data) ∧
    ¬(400 ≤ FastApp.respStatus ((FastApp.upload_video fsAlice formAlice
          (("tmpA").data)
          (.error (("SAVE AS DRAFT BUTTON NOT FOUND").data)) false).response) ∧
      FastApp.respStatus ((FastApp.upload_video fsAlice formAlice
          (("tmpA").data)
          (.error (("SAVE AS DRAFT BUTTON NOT FOUND").data)) false).response) < 500) := by
  decide

/-- C7 amended: an automation error whose message does not contain the
substring `"Save draft"` — in particular the all-caps
`SAVE AS DRAFT BUTTON NOT FOUND` message — receives no special
classification: the FastAPI upload operation returns the generic 500
server error with the message preserved in the detail, and the attempt is
not retried. -/
theorem C7_draft_button_amended (fs : FS) (form : FastApp.UploadForm)
    (tmpBase : Str) (cleanupFault : Bool) (e : Str)
    (hc : existsFile fs.cookieDir (FastApp.cookieFileName form.accountname) = true)
    (he : containsSub (("Save draft").data) e = false) :
    (FastApp.upload_video fs form tmpBase (.error e) cleanupFault).response =
      .err 500 (strOfExc 500 ((("Upload failed: ").data) ++ e)) := by
  unfold FastApp.upload_video
  simp [hc, FastApp.run_upload_in_thread, he, FastApp.finallyCleanup_response]

/-- C7 amended witness: the draft-button message evaluated through the
amended theorem at a concrete run for `alice`. -/
theorem C7_draft_button_amended_witness :
    (FastApp.upload_video fsAlice formAlice (("tmpA").data)
        (.error (("SAVE AS DRAFT BUTTON NOT FOUND").data)) false).response =
      .err 500 (strOfExc 500 ((("Upload failed: ").data) ++
        (("SAVE AS DRAFT BUTTON NOT FOUND").data))) :=
  C7_draft_button_amended fsAlice formAlice (("tmpA").data) false
    (("SAVE AS DRAFT BUTTON NOT FOUND").data) (by decide) (by decide)

/-- C8 counterexample: an out-of-enumeration sound mix mode (`"loud"`) is
not normalized to `"mix"`: the FastAPI upload operation passes it through
verbatim to the automation routine (and the upload does proceed). -/
theorem C8_sound_mode_counterexample :
    (FastApp.upload_video fsAlice formLoud (("tmpA").data)
        (.ok (("OK").data)) false).autoCall.map (fun c => c.sound_aud_vol) =
      some (("loud").data) ∧
    (("loud").data : Str) ≠ (("mix").data) ∧
    FastApp.respStatus ((FastApp.upload_video fsAlice formLoud (("tmpA").data)
        (.ok (("OK").data)) false).response) = 200 := by
  decide

/-- C8 amended: a supplied `sound_aud_vol` value — valid or not — is
passed through unchanged to the automation routine and the upload
proceeds; only an absent value is defaulted to `"mix"` (by the `Form`
default). -/
theorem C8_sound_mode_amended :
    (∀ (fs : FS) (form : FastApp.UploadForm) (tmpBase : Str)
        (autoResult : Except Str Str) (cleanupFault : Bool) (v : Str),
      existsFile fs.cookieDir (FastApp.cookieFileName form.accountname) = true →
      form.sound_aud_vol = some v →
      (FastApp.upload_video fs form tmpBase autoResult cleanupFault).autoCall.map
        (fun c => c.sound_aud_vol) = some v) ∧
    (∀ (fs : FS) (form : FastApp.UploadForm) (tmpBase : Str)
        (autoResult : Except Str Str) (cleanupFault : Bool),
      existsFile fs.cookieDir (FastApp.cookieFileName form.accountname) = true →
      form.sound_aud_vol = none →
      (FastApp.upload_video fs form tmpBase autoResult cleanupFault).autoCall.map
        (fun c => c.sound_aud_vol) = some (("mix").data)) := by
  constructor
  · intro fs form tmpBase autoResult cleanupFault v hc hv
    simp [FastApp.upload_video, hc, FastApp.finallyCleanup_autoCall, hv]
  · intro fs form tmpBase autoResult cleanupFault hc hv
    simp [FastApp.upload_video, hc, FastApp.finallyCleanup_autoCall, hv]

/-- C8 amended witness: both conjuncts evaluated at concrete runs —
`loud` passed through for `formLoud`, and `mix` injected when the field
is absent for `formAlice`. -/
theorem C8_sound_mode_amended_witness :
    (FastApp.upload_video fsAlice formLoud (("tmpB").data)
        (.ok (("OK").data)) false).autoCall.map (fun c => c.sound_aud_vol) =
      some (("loud").data) ∧
    (FastApp.upload_video fsAlice formAlice (("tmpB").data)
        (.ok (("OK").data)) false).autoCall.map (fun c => c.sound_aud_vol) =
      some (("mix").data) :=
  ⟨C8_sound_mode_amended.1 fsAlice formLoud (("tmpB").data)
      (.ok (("OK").data)) false (("loud").data) (by decide) (by decide),
   C8_sound_mode_amended.2 fsAlice formAlice (("tmpB").data)
      (.ok (("OK").data)) false (by decide) (by decide)⟩

/-- C5 counterexample: the FastAPI upload operation performs no media
validation at all — a request whose uploaded file is empty AND whose
filename has the disallowed extension `.txt` is still staged and handed
to the automation routine, returning success rather than an
`InvalidMedia` client error; and even the Flask variant invokes the
automation for an empty (zero-byte) file, since it only inspects the
filename. -/
theorem C5_media_validation_counterexample :
    (FastApp.upload_video fsAlice formTxt (("tmpA").data)
        (.ok (("OK").data)) false).autoCall.isSome = true ∧
    FastApp.respStatus ((FastApp.upload_video fsAlice formTxt (("tmpA").data)
        (.ok (("OK").data)) false).response) = 200 ∧
    (FlaskApp.upload_video [] reqAlice id (.ok ()) false).autoCall.isSome = true ∧
    (FlaskApp.upload_video [] reqAlice id (.ok ()) false).status = 200 := by
  decide

/-- C5 amended: only the Flask handler validates the media, and only via
the filename: a request with a present video part whose filename is empty
or whose extension is outside `{mp4, mov, avi, wmv}` fails with a 400
client error before the automation routine is invoked; empty file
content is not checked, and the FastAPI handler performs no media
validation at all — whenever the cookie file exists it invokes the
automation regardless of the uploaded file. -/
theorem C5_media_validation_amended :
    (∀ (files : Dir) (req : FlaskApp.FlaskReq) (sanitize : Str → Str)
        (autoResult : Except Str Unit) (cleanupFault : Bool),
      req.hasVideo = true →
      FlaskApp.allowed_file req.filename = false →
      (FlaskApp.upload_video files req sanitize autoResult cleanupFault).status = 400 ∧
      (FlaskApp.upload_video files req sanitize autoResult cleanupFault).autoCall = none) ∧
    (∀ (fs : FS) (form : FastApp.UploadForm) (tmpBase : Str)
        (autoResult : Except Str Str) (cleanupFault : Bool),
      existsFile fs.cookieDir (FastApp.cookieFileName form.accountname) = true →
      (FastApp.upload_video fs form tmpBase autoResult cleanupFault).autoCall.isSome = true) := by
  constructor
  · intro files req sanitize autoResult cleanupFault hv ha
    by_cases hf : (req.filename == []) = true
    · constructor <;> simp [FlaskApp.upload_video, hv, hf]
    · have hf' : (req.filename == []) = false := by simpa using hf
      constructor <;> simp [FlaskApp.upload_video, hv, hf', ha]
  · intro fs form tmpBase autoResult cleanupFault hc
    simp [FastApp.upload_video, hc, FastApp.finallyCleanup_autoCall]

/-- C5 amended witness: the Flask conjunct at the concrete disallowed
filename `a.txt`, and the FastAPI conjunct at a concrete run for
`alice`. -/
theorem C5_media_validation_amended_witness :
    ((FlaskApp.upload_video [] { reqCarol with filename := (("a.txt").data) } id
        (.ok ()) false).status = 400 ∧
     (FlaskApp.upload_video [] { reqCarol with filename := (("a.txt").data) } id
        (.ok ()) false).autoCall = none) ∧
    (FastApp.upload_video fsAlice formTxt (("tmpB").data)
        (.ok (("OK").data)) false).autoCall.isSome = true :=
  ⟨C5_media_validation_amended.1 [] { reqCarol with filename := (("a.txt").data) }
      id (.ok ()) false (by decide) (by decide),
   C5_media_validation_amended.2 fsAlice formTxt (("tmpB").data)
      (.ok (("OK").data)) false (by decide)⟩

/-- C1 counterexample: in the Flask handler a cleanup error does change
the primary outcome returned to the caller — the success-path
`os.remove` is not inside a protected block, so when it raises, the
handler's `except` turns an otherwise successful upload (a 200 response)
into a 500 error response. -/
theorem C1_cleanup_counterexample :
    (FlaskApp.upload_video [] reqCarol id (.ok ()) true).status = 500 ∧
    (FlaskApp.upload_video [] reqCarol id (.ok ()) false).status = 200 := by
  decide

/-- C1 amended: staged-file cleanup runs on every exit path of both
handlers and, when the deletions themselves succeed, the staged
temporary video and the staged cookie copy are absent from the
filesystem after the operation returns — on successful completion,
validation failure, and automation failure alike.  In the FastAPI
handler a cleanup error is caught and logged and never changes the
response; in the Flask handler, however, a cleanup error on the success
path is not isolated from the primary outcome (see the
counterexample). -/
theorem C1_cleanup_amended :
    (∀ (fs : FS) (form : FastApp.UploadForm) (tmpBase : Str)
        (autoResult : Except Str Str),
      existsFile fs.tmpDir (tmpBase ++ ((".mp4").data)) = false →
      existsFile ((FastApp.upload_video fs form tmpBase autoResult false).fs.tmpDir)
          (tmpBase ++ ((".mp4").data)) = false ∧
      existsFile ((FastApp.upload_video fs form tmpBase autoResult false).fs.workDir)
          (FastApp.cookieFileName form.accountname) = false) ∧
    (∀ (fs : FS) (form : FastApp.UploadForm) (tmpBase : Str)
        (autoResult : Except Str Str),
      (FastApp.upload_video fs form tmpBase autoResult true).response =
        (FastApp.upload_video fs form tmpBase autoResult false).response) ∧
    (∀ (files : Dir) (req : FlaskApp.FlaskReq) (sanitize : Str → Str)
        (autoResult : Except Str Unit),
      existsFile files ((("/app/uploads/").data) ++ sanitize req.filename) = false →
      existsFile ((FlaskApp.upload_video files req sanitize autoResult false).files)
          ((("/app/uploads/").data) ++ sanitize req.filename) = false) := by
  refine ⟨?_, ?_, ?_⟩
  · intro fs form tmpBase autoResult h
    by_cases hc : existsFile fs.cookieDir (FastApp.cookieFileName form.accountname) = true
    · constructor
      · simp [FastApp.upload_video, hc, FastApp.finallyCleanup_tmpDir_some,
          existsFile_unlinkIfExists]
      · simp [FastApp.upload_video, hc, FastApp.finallyCleanup_workDir,
          existsFile_unlinkIfExists]
    · have hc' : existsFile fs.cookieDir (FastApp.cookieFileName form.accountname) = false := by
        simpa using hc
      constructor
      · simp [FastApp.upload_video, hc', FastApp.finallyCleanup_tmpDir_none, h]
      · simp [FastApp.upload_video, hc', FastApp.finallyCleanup_workDir,
          existsFile_unlinkIfExists]
  · intro fs form tmpBase autoResult
    by_cases hc : existsFile fs.cookieDir (FastApp.cookieFileName form.accountname) = true
    · simp [FastApp.upload_video, hc, FastApp.finallyCleanup_response]
    · have hc' : existsFile fs.cookieDir (FastApp.cookieFileName form.accountname) = false := by
        simpa using hc
      simp [FastApp.upload_video, hc', FastApp.finallyCleanup_response]
  · intro files req sanitize autoResult h
    unfold FlaskApp.upload_video
    repeat' split
    all_goals first
      | simpa using h
      | simp [existsFile_removeFile]

/-- C1 amended witness: all three conjuncts evaluated at concrete runs —
a FastAPI success run for `alice` leaves neither staged file behind, its
response is identical with and without a cleanup fault, and a Flask
success run leaves no staged video behind. -/
theorem C1_cleanup_amended_witness :
    (existsFile ((FastApp.upload_video fsAlice formAlice (("tmpA").data)
          (.ok (("OK").data)) false).fs.tmpDir)
        ((("tmpA").data) ++ ((".mp4").data)) = false ∧
     existsFile ((FastApp.upload_video fsAlice formAlice (("tmpA").data)
          (.ok (("OK").data)) false).fs.workDir)
        (FastApp.cookieFileName (("alice").data)) = false) ∧
    (FastApp.upload_video fsAlice formAlice (("tmpA").data)
        (.ok (("OK").data)) true).response =
      (FastApp.upload_video fsAlice formAlice (("tmpA").data)
        (.ok (("OK").data)) false).response ∧
    existsFile ((FlaskApp.upload_video [] reqCarol id (.ok ()) false).files)
        ((("/app/uploads/").data) ++ id (("b.mp4").data)) = false :=
  ⟨C1_cleanup_amended.1 fsAlice formAlice (("tmpA").data)
      (.ok (("OK").data)) (by decide),
   C1_cleanup_amended.2.1 fsAlice formAlice (("tmpA").data) (.ok (("OK").data)),
   C1_cleanup_amended.2.2 [] reqCarol id (.ok ()) (by decide)⟩

end TikTokUploader
